import Mathlib

/-!
Verification development for the SmartLivingAdvisor repository.

The repository ships a React frontend (under `src/website` and the unnamed
parts) together with documentation of its scoring and recommendation engine
(`GOOGLE_MAPS_SETUP.md`, spec §4).  The engine itself (ScoreCalculator,
ProfileFitter, FeatureVectorizer, SimilarityIndex, HybridRanker) is not part
of the checked-out sources, so those components are modelled here from the
specification text; the frontend helpers (`RecommendedProperties`,
`filterPropertiesInBounds`, `smartScoreColor`) are embedded directly from
the JavaScript sources.  All numeric quantities are modelled with exact
rationals.
-/

namespace SmartLiving

/-- Clamp a rational into the interval `[lo, hi]`. -/
def clamp (x lo hi : ℚ) : ℚ := max lo (min x hi)

/-- Property condition enumeration (spec §3: New/Renovated/Old/Unknown). -/
inductive Condition where
  | new
  | renovated
  | old
  | unknown
deriving DecidableEq, Repr

/-- Score label enumeration (spec §3: Excellent/Good/Fair/Poor). -/
inductive Label where
  | excellent
  | good
  | fair
  | poor
deriving DecidableEq, Repr

/-- Modelled from the spec: `PropertyRecord` (spec §3).  Missing numeric
fields are `none`, never zero.  The price-to-income ratio is the field
`price_to_income`. -/
structure PropertyRecord where
  id : ℕ
  property_type : String
  floor_area_m2 : Option ℚ
  num_rooms : Option ℕ
  num_bathrooms : Option ℕ
  property_condition : Condition
  air_conditioning : Bool
  heating : Bool
  has_gym : Bool
  has_parking : Bool
  has_pool : Bool
  amenities : List String
  crime_rate : Option ℚ
  transport_score : Option ℚ
  price : Option ℚ
  income : Option ℚ
  price_to_income : Option ℚ
  price_per_m2 : Option ℚ

/-- Modelled from the spec: amenity-token normalization (spec §4.2 —
lowercase, strip brackets/quotes/whitespace).  Modelled as keeping only
alphanumeric characters of the lowercased token. -/
def normalizeToken (s : String) : String :=
  String.mk ((s.data.map Char.toLower).filter Char.isAlphanum)

/-- Modelled from the spec: per-numeric-feature fitted statistics
(1st/99th percentile bounds for normalization, scaler mean; the scaler
standard deviation is represented by its square, the variance, to stay in
exact rationals). -/
structure FeatStats where
  lo : ℚ
  hi : ℚ
  mean : ℚ
  variance : ℚ

/-- Default statistics used when a feature was never observed: a degenerate
range. -/
def FeatStats.degenerate : FeatStats := ⟨0, 0, 0, 0⟩

/-- Modelled from the spec: `VectorizationProfile` (spec §3/§4.2) —
category list, amenity vocabulary and per-numeric-feature statistics. -/
structure VectorizationProfile where
  categories : List String
  vocab : List String
  stats : List (String × FeatStats)

/-- Look up the fitted statistics of one numeric feature in a profile. -/
def lookupStats (name : String) (p : VectorizationProfile) : FeatStats :=
  match p.stats.find? (fun e => e.1 == name) with
  | some e => e.2
  | none => FeatStats.degenerate

/-- Modelled from the spec: `norm(x, lo, hi) = clamp((x − lo) / (hi − lo) ×
100, 0, 100)`, returning the midpoint 50 on a degenerate range (spec §4.2). -/
def norm100 (x lo hi : ℚ) : ℚ :=
  if hi = lo then 50 else clamp ((x - lo) / (hi - lo) * 100) 0 100

/-- Modelled from the spec: rooms/baths saturation reference counts — the
spec leaves the exact reference configurable (spec §4.1/§9). -/
structure ScoreConfig where
  bedRef : ℚ
  bathRef : ℚ

/-- Modelled from the spec: size sub-score
`min(floor_area_m2 / 120 × 100, 100)`, missing floor area → 0 (spec §4.1). -/
def sizeScore (fa : Option ℚ) : ℚ :=
  match fa with
  | none => 0
  | some a => min (a / 120 * 100) 100

/-- Modelled from the spec: one count sub-score — linear scaling saturating
at the configurable reference count (spec §4.1), missing count → 0. -/
def countScore (ref : ℚ) (n : Option ℕ) : ℚ :=
  match n with
  | none => 0
  | some m => min ((m : ℚ) / ref * 100) 100

/-- Modelled from the spec: condition sub-score — exact table
New=100, Renovated=85, Old=40, Unknown=0 (spec §4.1). -/
def conditionScore : Condition → ℚ
  | .new => 100
  | .renovated => 85
  | .old => 40
  | .unknown => 0

/-- Modelled from the spec: climate sub-score — both AC and heating 100,
exactly one 80, neither 0 (spec §4.1). -/
def climateScore (ac ht : Bool) : ℚ :=
  if ac && ht then 100 else if ac || ht then 80 else 0

/-- Normalized amenity tokens of a record. -/
def amenityTokens (r : PropertyRecord) : List String :=
  r.amenities.map normalizeToken

/-- Modelled from the spec: amenities sub-score from parsed amenity tokens,
weights gym=30, park=30, pool=40, capped at 100 (spec §4.1). -/
def amenitiesScore (toks : List String) : ℚ :=
  min (cond (toks.contains "gym") 30 0
      + cond (toks.contains "park") 30 0
      + cond (toks.contains "pool") 40 0) 100

/-- Modelled from the spec: crime sub-score
`max(100 − (crime_rate / 10 × 100), 0)`, missing crime rate → 0 (spec §4.1,
all-absent record yields all-zero sub-scores). -/
def crimeScore (cr : Option ℚ) : ℚ :=
  match cr with
  | none => 0
  | some c => max (100 - c / 10 * 100) 0

/-- Modelled from the spec: transport_norm — percentile normalization of
`transport_score` against the profile bounds, 0 when missing (spec §4.1). -/
def transportNorm (p : VectorizationProfile) (t : Option ℚ) : ℚ :=
  match t with
  | none => 0
  | some x =>
    let st := lookupStats "transport_score" p
    norm100 x st.lo st.hi

/-- Modelled from the spec: affordability_score — inverse of the normalized
price-to-income ratio (lower ratio → higher score), 0 when missing
(spec §4.1). -/
def affordabilityScore (p : VectorizationProfile) (ratio? : Option ℚ) : ℚ :=
  match ratio? with
  | none => 0
  | some x =>
    let st := lookupStats "price_to_income" p
    100 - norm100 x st.lo st.hi

/-- Modelled from the spec: extras_score = min(amenities×0.7 + 5×has_gym +
5×has_parking + 10×has_pool, 100) (spec §4.1). -/
def extrasScore (amen : ℚ) (gym parking pool : Bool) : ℚ :=
  min (amen * (7/10) + (if gym then 5 else 0) + (if parking then 5 else 0)
      + (if pool then 10 else 0)) 100

/-- Modelled from the spec: label thresholds — Excellent ≥80, Good ≥65,
Fair ≥45, else Poor (spec §4.1; also `GOOGLE_MAPS_SETUP.md` score table). -/
def labelOf (s : ℚ) : Label :=
  if 80 ≤ s then .excellent
  else if 65 ≤ s then .good
  else if 45 ≤ s then .fair
  else .poor

/-- Modelled from the spec: `ScoreBreakdown` (spec §3). -/
structure ScoreBreakdown where
  size : ℚ
  rooms : ℚ
  condition : ℚ
  climate : ℚ
  amenities : ℚ
  crime : ℚ
  hqs : ℚ
  transport_norm : ℚ
  affordability_score : ℚ
  extras_score : ℚ
  smart_living_score : ℚ
  label : Label

namespace ScoreCalculator

/-- Modelled from the spec: `ScoreCalculator.compute(record) -> ScoreBreakdown`
(spec §4.1) — pure, deterministic, never fails on a structurally valid
record.  HQS = size×0.30 + rooms×0.20 + condition×0.15 + climate×0.10 +
amenities×0.15 + crime×0.10; smart_living_score = HQS×0.50 +
transport_norm×0.20 + affordability×0.20 + extras×0.10 clamped to [0,100]. -/
def compute (cfg : ScoreConfig) (p : VectorizationProfile)
    (r : PropertyRecord) : ScoreBreakdown :=
  let size := sizeScore r.floor_area_m2
  let rooms := (countScore cfg.bedRef r.num_rooms
      + countScore cfg.bathRef r.num_bathrooms) / 2
  let cond := conditionScore r.property_condition
  let clim := climateScore r.air_conditioning r.heating
  let amen := amenitiesScore (amenityTokens r)
  let crime := crimeScore r.crime_rate
  let hqs := size * (30/100) + rooms * (20/100) + cond * (15/100)
      + clim * (10/100) + amen * (15/100) + crime * (10/100)
  let tn := transportNorm p r.transport_score
  let aff := affordabilityScore p r.price_to_income
  let ext := extrasScore amen r.has_gym r.has_parking r.has_pool
  let smart := clamp (hqs * (50/100) + tn * (20/100) + aff * (20/100)
      + ext * (10/100)) 0 100
  { size := size, rooms := rooms, condition := cond, climate := clim
    amenities := amen, crime := crime, hqs := hqs, transport_norm := tn
    affordability_score := aff, extras_score := ext
    smart_living_score := smart, label := labelOf smart }

end ScoreCalculator

/-- Frontend badge-colour helper embedded from
`src/unnamed/part_009` (`smartScoreColor`): a CSS tone, not the score label —
its thresholds (85/70) differ from the label thresholds. -/
def smartScoreColor (score : ℚ) : String :=
  if score ≥ 85 then "excellent"
  else if score ≥ 70 then "good"
  else "moderate"

/-- Ranking order shared by the spec-modelled sorted outputs: strictly
higher key first, ties by ascending identifier. -/
def rankRel {α : Type} (key : α → ℚ) (idn : α → ℕ) (a b : α) : Prop :=
  key b < key a ∨ (key a = key b ∧ idn a ≤ idn b)

instance instRankRelDecidable {α : Type} (key : α → ℚ) (idn : α → ℕ) :
    DecidableRel (rankRel key idn) := fun a b => by
  unfold rankRel; exact inferInstance

instance instRankRelTotal {α : Type} (key : α → ℚ) (idn : α → ℕ) :
    IsTotal α (rankRel key idn) := ⟨by
  intro a b
  rcases lt_trichotomy (key a) (key b) with h | h | h
  · exact Or.inr (Or.inl h)
  · rcases le_total (idn a) (idn b) with hi | hi
    · exact Or.inl (Or.inr ⟨h, hi⟩)
    · exact Or.inr (Or.inr ⟨h.symm, hi⟩)
  · exact Or.inl (Or.inl h)⟩

instance instRankRelTrans {α : Type} (key : α → ℚ) (idn : α → ℕ) :
    IsTrans α (rankRel key idn) := ⟨by
  intro a b c hab hbc
  rcases hab with h1 | h1 <;> rcases hbc with h2 | h2
  · exact Or.inl (lt_trans h2 h1)
  · exact Or.inl (by rw [← h2.1]; exact h1)
  · exact Or.inl (by rw [h1.1]; exact h2)
  · exact Or.inr ⟨h1.1.trans h2.1, le_trans h1.2 h2.2⟩⟩

/-- Modelled from the spec: one entry of the ranked recommendation list
(spec §4.5). -/
structure RecEntry where
  id : ℕ
  similarity : ℚ
  hybrid : ℚ

/-- Modelled from the spec: `hybrid = similarity×0.60 +
(smart_living_score/100)×0.25 + (affordability_score/100)×0.15`
(spec §4.5). -/
def hybridScore (simv smart afford : ℚ) : ℚ :=
  simv * (60/100) + smart / 100 * (25/100) + afford / 100 * (15/100)

namespace HybridRanker

/-- Modelled from the spec: `HybridRanker.rank(query_id, k, neighbors,
scores)` (spec §4.5) — computes the hybrid value of every neighbor, sorts
descending by hybrid with ties broken by ascending identifier, and returns
at most `k` entries.  `scores` maps an identifier to its
(smart_living_score, affordability_score) pair. -/
def rank (qid k : ℕ) (neighbors : List (ℕ × ℚ)) (scores : ℕ → ℚ × ℚ) :
    List RecEntry :=
  let entries := neighbors.map (fun n =>
    ({ id := n.1, similarity := n.2
       hybrid := hybridScore n.2 (scores n.1).1 (scores n.1).2 } : RecEntry))
  (entries.insertionSort (rankRel RecEntry.hybrid RecEntry.id)).take k

end HybridRanker

/-- Modelled from the spec: error raised by `ProfileFitter.fit` on an empty
corpus (spec §4.2/§7). -/
inductive FitError where
  | insufficientData
deriving DecidableEq, Repr

/-- Nearest-rank percentile (the fixed, documented interpolation method of
the model): the element of the ascending sort at rank `⌈p/100 × n⌉`,
clamped into `[1, n]`; 0 on an empty list. -/
def pctl (p : ℚ) (l : List ℚ) : ℚ :=
  let s := l.insertionSort (fun a b => a ≤ b)
  let n := l.length
  if n = 0 then 0
  else
    let rank := max 1 (min n (Int.toNat ⌈p / 100 * (n : ℚ)⌉))
    s.getD (rank - 1) 0

/-- Mean of a list of rationals, 0 on an empty list. -/
def meanQ (l : List ℚ) : ℚ :=
  if l.length = 0 then 0 else l.sum / l.length

/-- Population variance of a list of rationals, 0 on an empty list. -/
def varQ (l : List ℚ) : ℚ :=
  if l.length = 0 then 0
  else (l.map (fun x => (x - meanQ l) ^ 2)).sum / l.length

/-- Fitted statistics of one numeric feature: 1st/99th percentile bounds,
mean and variance (spec §4.2). -/
def fitStats (l : List ℚ) : FeatStats :=
  ⟨pctl 1 l, pctl 99 l, meanQ l, varQ l⟩

/-- The numeric features a profile is fitted over (spec §3: FeatureVector
scaled-numeric block plus the normalization inputs). -/
def numericFeatures : List (String × (PropertyRecord → Option ℚ)) :=
  [("floor_area_m2", fun r => r.floor_area_m2),
   ("num_rooms", fun r => r.num_rooms.map (fun n => (n : ℚ))),
   ("num_bathrooms", fun r => r.num_bathrooms.map (fun n => (n : ℚ))),
   ("price_per_m2", fun r => r.price_per_m2),
   ("price_to_income", fun r => r.price_to_income),
   ("transport_score", fun r => r.transport_score),
   ("crime_rate", fun r => r.crime_rate),
   ("price", fun r => r.price),
   ("income", fun r => r.income)]

/-- Modelled from the spec: profile construction over a non-empty corpus
(spec §4.2) — sorted unique category list, normalized deduplicated amenity
vocabulary, and per-numeric-feature statistics over the present values. -/
def mkProfile (rs : List PropertyRecord) : VectorizationProfile :=
  { categories :=
      ((rs.map (fun r => r.property_type)).insertionSort (fun a b => a ≤ b)).dedup
    vocab :=
      ((rs.foldr (fun r acc => r.amenities ++ acc) []).map normalizeToken).dedup
    stats := numericFeatures.map (fun f => (f.1, fitStats (rs.filterMap f.2))) }

namespace ProfileFitter

/-- Modelled from the spec: `ProfileFitter.fit(records) ->
VectorizationProfile`, failing with `InsufficientDataError` exactly on an
empty corpus (spec §4.2). -/
def fit (rs : List PropertyRecord) : Except FitError VectorizationProfile :=
  match rs with
  | [] => .error .insufficientData
  | r :: rest => .ok (mkProfile (r :: rest))

end ProfileFitter

/-- Modelled from the spec: error raised by `SimilarityIndex.query` on an
unknown identifier (spec §4.4/§7). -/
inductive QueryError where
  | notFound
deriving DecidableEq, Repr

/-- Modelled from the spec: `SimilarityIndex` (spec §3/§4.4) — an immutable
structure built from the identifier-to-feature-vector mapping. -/
structure SimilarityIndex where
  entries : List (ℕ × List ℚ)

/-- Whether an identifier is present in the index. -/
def SimilarityIndex.hasId (idx : SimilarityIndex) (i : ℕ) : Bool :=
  idx.entries.any (fun e => e.1 == i)

/-- Modelled from the spec: `Index.query(id, k)` (spec §4.4) — fails with
`NotFoundError` on an absent identifier, otherwise scores every other entry
and returns at most `k` (neighbor_id, similarity) pairs ordered by
descending similarity with ties broken by ascending identifier.  Cosine
similarity over the reals is not representable in exact rationals, so the
similarity metric is a parameter `sim` of the query. -/
def SimilarityIndex.query (sim : List ℚ → List ℚ → ℚ) (idx : SimilarityIndex)
    (i k : ℕ) : Except QueryError (List (ℕ × ℚ)) :=
  match idx.entries.find? (fun e => e.1 == i) with
  | none => .error .notFound
  | some e =>
    let others := idx.entries.filter (fun o => o.1 != i)
    let scored := others.map (fun o => (o.1, sim e.2 o.2))
    .ok ((scored.insertionSort (rankRel Prod.snd Prod.fst)).take k)

/-- Embedded from `src/unnamed/part_008`
(`RecommendedProperties.fetchRecommendations`): an array response `data` is
stored with `setProperties(data.slice(0, 6))` — the first six entries. -/
def recommendedStored {α : Type} (data : List α) : List α := data.take 6

/-- Google-Maps bounds rectangle as used by `MapView`
(`src/unnamed/part_007`): south/north latitude and west/east longitude
edges. -/
structure LatLngBounds where
  south : ℚ
  north : ℚ
  west : ℚ
  east : ℚ

/-- Membership of a coordinate in a bounds rectangle
(`bounds.contains({lat, lng})`). -/
def LatLngBounds.contains (b : LatLngBounds) (lat lng : ℚ) : Bool :=
  decide (b.south ≤ lat) && decide (lat ≤ b.north)
    && decide (b.west ≤ lng) && decide (lng ≤ b.east)

/-- The map handle of `filterPropertiesInBounds`: `map.getBounds()` may be
undefined (`none`). -/
structure GMap where
  bounds : Option LatLngBounds

/-- A property as seen by `MapView`: `latitude`/`longitude` model the
`parseFloat` result of the raw fields, `none` when it is NaN. -/
structure MapProp where
  id : ℕ
  latitude : Option ℚ
  longitude : Option ℚ

/-- The filter predicate body of `filterPropertiesInBounds`
(`src/unnamed/part_007` lines 25–30): both coordinates must parse and the
point must lie within the bounds. -/
def inBoundsB (b : LatLngBounds) (p : MapProp) : Bool :=
  match p.latitude, p.longitude with
  | some lat, some lng => b.contains lat lng
  | _, _ => false

/-- Embedded from `src/unnamed/part_007` (`filterPropertiesInBounds`):
returns the input unchanged when the bounds are undefined, otherwise keeps
the properties whose parsed coordinates lie within the bounds. -/
def filterPropertiesInBounds (m : GMap) (items : List MapProp) :
    List MapProp :=
  match m.bounds with
  | none => items
  | some b => items.filter (fun p => inBoundsB b p)

/-- Shared concrete configuration used by witnesses. -/
def wCfg : ScoreConfig := ⟨3, 2⟩

/-- Shared concrete (empty) profile used by witnesses. -/
def wProfile : VectorizationProfile := ⟨[], [], []⟩

/-- Shared concrete record used by witnesses. -/
def wRec : PropertyRecord :=
  { id := 1, property_type := "villa", floor_area_m2 := some 120
    num_rooms := some 3, num_bathrooms := some 2
    property_condition := Condition.new
    air_conditioning := true, heating := true
    has_gym := false, has_parking := false, has_pool := false
    amenities := ["gym", "pool"], crime_rate := some 0
    transport_score := none, price := none, income := none
    price_to_income := none, price_per_m2 := none }

/-- Concrete neighbor list used by witnesses. -/
def wNeighbors : List (ℕ × ℚ) := [(2, 1/2), (3, 1/2)]

/-- Concrete score table used by witnesses. -/
def wScores : ℕ → ℚ × ℚ := fun _ => (50, 50)

/-- Dot product, a concrete similarity function used by witnesses. -/
def dotSim (v w : List ℚ) : ℚ :=
  ((v.zip w).map (fun q => q.1 * q.2)).sum

/-- Concrete similarity index used by witnesses. -/
def wIndex : SimilarityIndex := ⟨[(1, [1, 0]), (2, [0, 1]), (3, [1, 1])]⟩

/-- Concrete bounds rectangle used by witnesses. -/
def wBounds : LatLngBounds := ⟨0, 10, 0, 10⟩

/-- Concrete map handle used by witnesses. -/
def wMap : GMap := ⟨some wBounds⟩

/-- Concrete property list used by witnesses. -/
def wItems : List MapProp :=
  [⟨1, some 5, some 5⟩, ⟨2, none, some 5⟩, ⟨3, some 20, some 5⟩]

lemma clamp_lower (x lo hi : ℚ) : lo ≤ clamp x lo hi := le_max_left lo _

lemma clamp_upper (x lo hi : ℚ) (h : lo ≤ hi) : clamp x lo hi ≤ hi :=
  max_le h (min_le_right x hi)

lemma linear_sat (ref v : ℚ) (hpos : 0 < ref) (hle : ref ≤ v) :
    min (v / ref * 100) 100 = 100 := by
  have h1 : (1 : ℚ) ≤ v / ref := (one_le_div hpos).mpr hle
  have h2 : (100 : ℚ) ≤ v / ref * 100 := by nlinarith
  exact min_eq_right h2

lemma countScore_saturated (ref : ℚ) (m : ℕ) (hpos : 0 < ref)
    (hle : ref ≤ (m : ℚ)) : countScore ref (some m) = 100 := by
  unfold countScore
  exact linear_sat ref (m : ℚ) hpos hle

lemma hybridScore_bounds (s sm af : ℚ) (hs0 : 0 ≤ s) (hs1 : s ≤ 1)
    (hm0 : 0 ≤ sm) (hm1 : sm ≤ 100) (ha0 : 0 ≤ af) (ha1 : af ≤ 100) :
    0 ≤ hybridScore s sm af ∧ hybridScore s sm af ≤ 1 := by
  unfold hybridScore
  constructor <;> nlinarith

lemma inBoundsB_iff (b : LatLngBounds) (p : MapProp) :
    inBoundsB b p = true
      ↔ ∃ lat lng, p.latitude = some lat ∧ p.longitude = some lng
          ∧ b.contains lat lng = true := by
  rcases hlat : p.latitude with _ | lat <;>
    rcases hlng : p.longitude with _ | lng <;>
      simp [inBoundsB, hlat, hlng]

/-- C1: the derived label follows the documented thresholds exactly:
Excellent iff score ≥ 80, Good iff 65 ≤ score < 80, Fair iff
45 ≤ score < 65, Poor iff score < 45; in particular a score of exactly 80
is Excellent and 79.999 is Good. -/
theorem label_thresholds :
    (∀ s : ℚ,
      (labelOf s = Label.excellent ↔ 80 ≤ s) ∧
      (labelOf s = Label.good ↔ 65 ≤ s ∧ s < 80) ∧
      (labelOf s = Label.fair ↔ 45 ≤ s ∧ s < 65) ∧
      (labelOf s = Label.poor ↔ s < 45)) ∧
    labelOf 80 = Label.excellent ∧ labelOf (79999/1000) = Label.good := by
  refine ⟨fun s => ?_, by norm_num [labelOf], by norm_num [labelOf]⟩
  unfold labelOf
  split_ifs with h1 h2 h3
  · exact ⟨iff_of_true rfl h1,
      iff_of_false (by decide) (fun h => absurd h.2 (not_lt.mpr h1)),
      iff_of_false (by decide) (fun h => absurd h.2 (not_lt.mpr (by linarith))),
      iff_of_false (by decide) (not_lt.mpr (by linarith))⟩
  · exact ⟨iff_of_false (by decide) h1,
      iff_of_true rfl ⟨h2, not_le.mp h1⟩,
      iff_of_false (by decide) (fun h => absurd h.2 (not_lt.mpr h2)),
      iff_of_false (by decide) (not_lt.mpr (by linarith))⟩
  · exact ⟨iff_of_false (by decide) h1,
      iff_of_false (by decide) (fun h => h2 h.1),
      iff_of_true rfl ⟨h3, not_le.mp h2⟩,
      iff_of_false (by decide) (not_lt.mpr h3)⟩
  · exact ⟨iff_of_false (by decide) h1,
      iff_of_false (by decide) (fun h => h2 h.1),
      iff_of_false (by decide) (fun h => h3 h.1),
      iff_of_true rfl (not_le.mp h3)⟩

/-- C2: `smart_living_score` equals the weighted composite
HQS×0.50 + transport_norm×0.20 + affordability_score×0.20 + extras_score×0.10
clamped to [0,100], hence always lies in [0,100]. -/
theorem smart_living_score_clamped (cfg : ScoreConfig)
    (p : VectorizationProfile) (r : PropertyRecord) :
    (ScoreCalculator.compute cfg p r).smart_living_score
        = clamp ((ScoreCalculator.compute cfg p r).hqs * (50/100)
            + (ScoreCalculator.compute cfg p r).transport_norm * (20/100)
            + (ScoreCalculator.compute cfg p r).affordability_score * (20/100)
            + (ScoreCalculator.compute cfg p r).extras_score * (10/100)) 0 100
      ∧ 0 ≤ (ScoreCalculator.compute cfg p r).smart_living_score
      ∧ (ScoreCalculator.compute cfg p r).smart_living_score ≤ 100 :=
  ⟨rfl, clamp_lower _ 0 100, clamp_upper _ 0 100 (by norm_num)⟩

/-- C3: on a record with floor area 120, condition New, both climate
amenities, crime rate 0, amenities {gym, pool} and saturated room counts,
the sub-scores are size=100, rooms=100, condition=100, climate=100,
amenities=70, crime=100 and HQS = 95.5. -/
theorem hqs_concrete_scenario (cfg : ScoreConfig) (p : VectorizationProfile)
    (r : PropertyRecord)
    (hfa : r.floor_area_m2 = some 120) (hc : r.property_condition = Condition.new)
    (hac : r.air_conditioning = true) (hht : r.heating = true)
    (hcr : r.crime_rate = some 0) (ham : r.amenities = ["gym", "pool"])
    (nb nbath : ℕ) (hnb : r.num_rooms = some nb) (hnbath : r.num_bathrooms = some nbath)
    (hb0 : 0 < cfg.bedRef) (hb1 : cfg.bedRef ≤ (nb : ℚ))
    (ht0 : 0 < cfg.bathRef) (ht1 : cfg.bathRef ≤ (nbath : ℚ)) :
    (ScoreCalculator.compute cfg p r).size = 100
    ∧ (ScoreCalculator.compute cfg p r).rooms = 100
    ∧ (ScoreCalculator.compute cfg p r).condition = 100
    ∧ (ScoreCalculator.compute cfg p r).climate = 100
    ∧ (ScoreCalculator.compute cfg p r).amenities = 70
    ∧ (ScoreCalculator.compute cfg p r).crime = 100
    ∧ (ScoreCalculator.compute cfg p r).hqs = 191/2 := by
  have hamtok : amenityTokens r = ["gym", "pool"] := by
    rw [amenityTokens, ham]; rfl
  have hamen : amenitiesScore ["gym", "pool"] = 70 := by
    have hg : (["gym", "pool"] : List String).contains "gym" = true := by decide
    have hpk : (["gym", "pool"] : List String).contains "park" = false := by decide
    have hpl : (["gym", "pool"] : List String).contains "pool" = true := by decide
    rw [amenitiesScore, hg, hpk, hpl]
    norm_num [min_def]
  have hs1 : countScore cfg.bedRef (some nb) = 100 :=
    countScore_saturated _ _ hb0 hb1
  have hs2 : countScore cfg.bathRef (some nbath) = 100 :=
    countScore_saturated _ _ ht0 ht1
  refine ⟨?_, ?_, ?_, ?_, ?_, ?_, ?_⟩ <;>
    simp only [ScoreCalculator.compute, hfa, hc, hac, hht, hcr, hnb, hnbath,
      hamtok, hamen, hs1, hs2, sizeScore, conditionScore, climateScore,
      crimeScore] <;> norm_num

/-- Witness for C3: the scenario instantiated at a concrete record. -/
theorem hqs_concrete_scenario_witness :
    (ScoreCalculator.compute wCfg wProfile wRec).hqs = 191/2 :=
  (hqs_concrete_scenario wCfg wProfile wRec rfl rfl rfl rfl rfl rfl 3 2 rfl rfl
    (by norm_num [wCfg]) (by norm_num [wCfg]) (by norm_num [wCfg])
    (by norm_num [wCfg])).2.2.2.2.2.2

/-- C8: the size sub-score of `ScoreCalculator.compute` is monotone in
floor area, equals min(floor_area / 120 × 100, 100), saturates at 100 for
floor area ≥ 120, and is 0 when the floor area is missing. -/
theorem size_subscore_props (cfg : ScoreConfig) (p : VectorizationProfile)
    (r : PropertyRecord) (a b : ℚ) (hab : a ≤ b) :
    (ScoreCalculator.compute cfg p { r with floor_area_m2 := some a }).size
        ≤ (ScoreCalculator.compute cfg p { r with floor_area_m2 := some b }).size
    ∧ ((120 : ℚ) ≤ a →
        (ScoreCalculator.compute cfg p { r with floor_area_m2 := some a }).size = 100)
    ∧ (ScoreCalculator.compute cfg p { r with floor_area_m2 := none }).size = 0
    ∧ (ScoreCalculator.compute cfg p { r with floor_area_m2 := some a }).size
        = min (a / 120 * 100) 100 := by
  have hmono : sizeScore (some a) ≤ sizeScore (some b) := by
    unfold sizeScore
    refine min_le_min ?_ le_rfl
    gcongr
  refine ⟨hmono, fun h120 => ?_, rfl, rfl⟩
  show sizeScore (some a) = 100
  unfold sizeScore
  exact linear_sat 120 a (by norm_num) h120

/-- Witness for C8: monotonicity instantiated at floor areas 60 and 130. -/
theorem size_subscore_props_witness :
    (ScoreCalculator.compute wCfg wProfile { wRec with floor_area_m2 := some 60 }).size
      ≤ (ScoreCalculator.compute wCfg wProfile { wRec with floor_area_m2 := some 130 }).size :=
  (size_subscore_props wCfg wProfile wRec 60 130 (by norm_num)).1

/-- C4: every entry produced by `HybridRanker.rank` carries the hybrid value
similarity×0.60 + (smart/100)×0.25 + (affordability/100)×0.15, which lies in
[0,1] when the similarity is in [0,1] and both scores are in [0,100]; the
output is sorted descending by hybrid with ties broken by ascending
identifier, and when `k` covers the neighbor list it is a permutation of
all the computed entries. -/
theorem hybrid_rank_props (qid k : ℕ) (neighbors : List (ℕ × ℚ))
    (scores : ℕ → ℚ × ℚ)
    (hsim : ∀ n ∈ neighbors, 0 ≤ n.2 ∧ n.2 ≤ 1)
    (hsc : ∀ j, 0 ≤ (scores j).1 ∧ (scores j).1 ≤ 100
        ∧ 0 ≤ (scores j).2 ∧ (scores j).2 ≤ 100) :
    List.Sorted (rankRel RecEntry.hybrid RecEntry.id)
        (HybridRanker.rank qid k neighbors scores)
    ∧ (∀ e ∈ HybridRanker.rank qid k neighbors scores,
        e.hybrid = hybridScore e.similarity (scores e.id).1 (scores e.id).2
        ∧ 0 ≤ e.hybrid ∧ e.hybrid ≤ 1)
    ∧ (neighbors.length ≤ k →
        List.Perm (HybridRanker.rank qid k neighbors scores)
          (neighbors.map (fun n =>
            ({ id := n.1, similarity := n.2
               hybrid := hybridScore n.2 (scores n.1).1 (scores n.1).2 } : RecEntry)))) := by
  have hrank : HybridRanker.rank qid k neighbors scores
      = ((neighbors.map (fun n =>
          ({ id := n.1, similarity := n.2
             hybrid := hybridScore n.2 (scores n.1).1 (scores n.1).2 } : RecEntry))).insertionSort
          (rankRel RecEntry.hybrid RecEntry.id)).take k := rfl
  refine ⟨?_, ?_, ?_⟩
  · rw [hrank]
    exact List.Pairwise.sublist (List.take_sublist _ _)
      (List.sorted_insertionSort _ _)
  · intro e he
    rw [hrank] at he
    have h1 := List.take_subset _ _ he
    have h2 := (List.perm_insertionSort
      (rankRel RecEntry.hybrid RecEntry.id) _).subset h1
    obtain ⟨n, hn, rfl⟩ := List.mem_map.mp h2
    obtain ⟨hn0, hn1⟩ := hsim n hn
    obtain ⟨hm0, hm1, ha0, ha1⟩ := hsc n.1
    exact ⟨rfl, (hybridScore_bounds _ _ _ hn0 hn1 hm0 hm1 ha0 ha1).1,
      (hybridScore_bounds _ _ _ hn0 hn1 hm0 hm1 ha0 ha1).2⟩
  · intro hk
    rw [hrank]
    rw [List.take_of_length_le]
    · exact List.perm_insertionSort _ _
    · rw [(List.perm_insertionSort
        (rankRel RecEntry.hybrid RecEntry.id) _).length_eq, List.length_map]
      exact hk

/-- Witness for C4: sortedness of the ranked output at concrete inputs. -/
theorem hybrid_rank_props_witness :
    List.Sorted (rankRel RecEntry.hybrid RecEntry.id)
      (HybridRanker.rank 1 5 wNeighbors wScores) :=
  (hybrid_rank_props 1 5 wNeighbors wScores
    (by intro n hn
        simp only [wNeighbors, List.mem_cons, List.not_mem_nil, or_false] at hn
        rcases hn with h | h <;> subst h <;> norm_num)
    (fun j => by norm_num [wScores])).1

/-- C5: `ProfileFitter.fit` fails with `InsufficientDataError` exactly on
the empty corpus: the empty list yields the error, and every non-empty list
of records yields a `VectorizationProfile`. -/
theorem fit_insufficient_iff_empty :
    ProfileFitter.fit [] = Except.error FitError.insufficientData
    ∧ ∀ (r : PropertyRecord) (rs : List PropertyRecord),
        ProfileFitter.fit (r :: rs) = Except.ok (mkProfile (r :: rs)) :=
  ⟨rfl, fun _ _ => rfl⟩

/-- C6: querying a present identifier returns an ordered list of
(neighbor_id, similarity) pairs that never contains the query identifier
and has length at most `k`. -/
theorem query_present_props (sim : List ℚ → List ℚ → ℚ)
    (idx : SimilarityIndex) (i k : ℕ) (h : idx.hasId i = true) :
    ∃ l, idx.query sim i k = Except.ok l
      ∧ l.length ≤ k
      ∧ (∀ q ∈ l, q.1 ≠ i)
      ∧ List.Sorted (rankRel Prod.snd Prod.fst) l := by
  have hex : ∃ e, e ∈ idx.entries ∧ (e.1 == i) = true := by
    have h' := h
    unfold SimilarityIndex.hasId at h'
    simpa using List.any_eq_true.mp h'
  obtain ⟨e, he, hei⟩ := hex
  have hfind : ∃ e0, idx.entries.find? (fun o => o.1 == i) = some e0 := by
    rcases hf : idx.entries.find? (fun o => o.1 == i) with _ | e0
    · exact absurd hei (List.find?_eq_none.mp hf e he)
    · exact ⟨e0, hf⟩
  obtain ⟨e0, hf⟩ := hfind
  refine ⟨(((idx.entries.filter (fun o => o.1 != i)).map
      (fun o => (o.1, sim e0.2 o.2))).insertionSort
        (rankRel Prod.snd Prod.fst)).take k, ?_, ?_, ?_, ?_⟩
  · unfold SimilarityIndex.query
    rw [hf]
  · exact List.length_take_le _ _
  · intro q hq
    have h1 := List.take_subset _ _ hq
    have h2 := (List.perm_insertionSort (rankRel Prod.snd Prod.fst) _).subset h1
    obtain ⟨o, ho, rfl⟩ := List.mem_map.mp h2
    exact bne_iff_ne.mp (List.mem_filter.mp ho).2
  · exact List.Pairwise.sublist (List.take_sublist _ _)
      (List.sorted_insertionSort _ _)

/-- Witness for C6: a query against a three-entry index with dot-product
similarity. -/
theorem query_present_props_witness :
    ∃ l, wIndex.query dotSim 1 2 = Except.ok l
      ∧ l.length ≤ 2
      ∧ (∀ q ∈ l, q.1 ≠ 1)
      ∧ List.Sorted (rankRel Prod.snd Prod.fst) l :=
  query_present_props dotSim wIndex 1 2 rfl

/-- C7: querying an absent identifier fails with `NotFoundError`. -/
theorem query_absent_not_found (sim : List ℚ → List ℚ → ℚ)
    (idx : SimilarityIndex) (i k : ℕ) (h : idx.hasId i = false) :
    idx.query sim i k = Except.error QueryError.notFound := by
  have h' : ∀ x ∈ idx.entries, ¬((x.1 == i) = true) := by
    have hh := h
    unfold SimilarityIndex.hasId at hh
    simpa using List.any_eq_false.mp hh
  have hnone : idx.entries.find? (fun o => o.1 == i) = none :=
    List.find?_eq_none.mpr h'
  unfold SimilarityIndex.query
  rw [hnone]

/-- Witness for C7: identifier 9 is absent from the concrete index. -/
theorem query_absent_not_found_witness :
    wIndex.query dotSim 9 2 = Except.error QueryError.notFound :=
  query_absent_not_found dotSim wIndex 9 2 rfl

/-- C9: the stored recommendation list is the first at-most-six entries of
the array response, in the order received, and is the whole response when
it has at most six entries. -/
theorem recommended_first_six {α : Type} (data : List α) :
    (recommendedStored data).length ≤ 6
    ∧ (∃ rest, data = recommendedStored data ++ rest)
    ∧ (data.length ≤ 6 → recommendedStored data = data) :=
  ⟨List.length_take_le _ _,
   ⟨data.drop 6, (List.take_append_drop 6 data).symm⟩,
   fun h => List.take_of_length_le h⟩

/-- Witness for C9: a three-entry response is stored whole. -/
theorem recommended_first_six_witness :
    recommendedStored [1, 2, 3] = [1, 2, 3] :=
  (recommended_first_six [1, 2, 3]).2.2 (by norm_num)

/-- C10: with undefined bounds the input list is returned unchanged; with
defined bounds the result is the sublist of exactly those properties whose
coordinates both parse and lie within the bounds — properties with an
unparseable coordinate are excluded. -/
theorem filter_in_bounds_props (m : GMap) (items : List MapProp) :
    (m.bounds = none → filterPropertiesInBounds m items = items)
    ∧ ∀ b, m.bounds = some b →
        (filterPropertiesInBounds m items).Sublist items
        ∧ ∀ p, p ∈ filterPropertiesInBounds m items
            ↔ p ∈ items ∧ ∃ lat lng, p.latitude = some lat
                ∧ p.longitude = some lng ∧ b.contains lat lng = true := by
  constructor
  · intro h
    unfold filterPropertiesInBounds
    rw [h]
  · intro b hb
    unfold filterPropertiesInBounds
    rw [hb]
    refine ⟨List.filter_sublist _, fun p => ?_⟩
    rw [List.mem_filter, inBoundsB_iff]

/-- Witness for C10: the filtered concrete list is a sublist of the input. -/
theorem filter_in_bounds_props_witness :
    (filterPropertiesInBounds wMap wItems).Sublist wItems :=
  (((filter_in_bounds_props wMap wItems).2 wBounds rfl).1)

end SmartLiving
